import Mathlib

/-!
Shallow embedding of the test-execution resource-provisioning subsystem of a
Playwright/pytest automation framework: worker-to-identity mapping
(`utils/worker_mapper.py`, duplicated in `tests/conftest.py`), credential
cache and login (`utils/auth_manager.py`, `tests/conftest.py`), seed-data
provisioning (`utils/seed_data_manager.py`, `tests/conftest.py`), naming
helpers (`data/test_data.py`) and settings (`config/settings.py`).

Python strings are modelled as Lean `String` with hand-rolled helpers
(`strLower`, `strReplace`, `strContains`, `pyCapitalize`, `pyInt`) because the
corresponding core `String` functions do not reduce in the kernel; the helpers
implement the ASCII behaviour of the CPython operations used by the sources.
Python exceptions are modelled as `Except`/`Option` results; backend and
browser I/O is modelled by explicit client/environment records threaded as
state.
-/

namespace PWF

/-- ASCII lower-casing of one character, as `str.lower` acts on the
ASCII-only strings (roles, item types) this codebase passes to it. -/
def lowerChar (c : Char) : Char :=
  if 65 ≤ c.toNat ∧ c.toNat ≤ 90 then Char.ofNat (c.toNat + 32) else c

/-- ASCII upper-casing of one character. -/
def upperChar (c : Char) : Char :=
  if 97 ≤ c.toNat ∧ c.toNat ≤ 122 then Char.ofNat (c.toNat - 32) else c

/-- Python `s.lower()` (ASCII fragment). -/
def strLower (s : String) : String := ⟨s.data.map lowerChar⟩

/-- Python `s.capitalize()`: first character upper-cased, the rest
lower-cased (ASCII fragment).  Note this differs from Lean's own
`String.capitalize`, which leaves the tail unchanged. -/
def pyCapitalize (s : String) : String :=
  match s.data with
  | [] => ""
  | c :: t => ⟨upperChar c :: t.map lowerChar⟩

/-- Python `s.startswith(pre)`. -/
def startsW (s pre : String) : Bool := pre.data.isPrefixOf s.data

/-- Whether `p` occurs as a contiguous sublist of `l` (helper for the
Python substring test `pat in s`). -/
def listContains (p : List Char) : List Char → Bool
  | [] => p.isEmpty
  | c :: t => p.isPrefixOf (c :: t) || listContains p t

/-- Python `pat in s` (substring containment). -/
def strContains (s pat : String) : Bool := listContains pat.data s.data

/-- Worker for `strReplace`: left-to-right, non-overlapping replacement.
`skip > 0` means the head character belongs to an occurrence already
replaced and is dropped.  (Structural recursion on the list, so the kernel
can evaluate it; a match consumes the matched characters via the skip
counter.) -/
def replaceList (p r : List Char) : Nat → List Char → List Char
  | _, [] => []
  | k + 1, _ :: t => replaceList p r k t
  | 0, c :: t =>
    if p.isPrefixOf (c :: t) ∧ ¬p.isEmpty then
      r ++ replaceList p r (p.length - 1) t
    else
      c :: replaceList p r 0 t

/-- Python `s.replace(pat, rep)` (replaces every occurrence).  The
empty-pattern case never arises at the call sites (`"gw"`, `"@"`, `"."`). -/
def strReplace (s pat rep : String) : String := ⟨replaceList pat.data rep.data 0 s.data⟩

/-- Decimal digits of a natural number, most significant first.  The fuel
argument (instantiated with `n + 1 ≥` the digit count) keeps the recursion
structural so that the kernel can evaluate it. -/
def natDigits : Nat → Nat → List Char → List Char
  | 0, _, acc => acc
  | fuel + 1, n, acc =>
    let d := Char.ofNat (48 + n % 10)
    if n < 10 then d :: acc else natDigits fuel (n / 10) (d :: acc)

/-- Python `str(n)` for a natural number. -/
def natToStr (n : Nat) : String := ⟨natDigits (n + 1) n []⟩

/-- Python `str(i)` for an integer. -/
def intToStr (i : Int) : String :=
  if i < 0 then "-" ++ natToStr (-i).toNat else natToStr i.toNat
/-- ASCII decimal digit test. -/
def isDigitCh (c : Char) : Bool := 48 ≤ c.toNat && c.toNat ≤ 57

/-- Whitespace stripped by Python `int(...)`. -/
def isSpaceCh (c : Char) : Bool := c == ' ' || c == '\t' || c == '\n' || c == '\r'

/-- Value of a digit string, most significant first. -/
def digitsToNat (l : List Char) : Nat := l.foldl (fun acc c => acc * 10 + (c.toNat - 48)) 0

/-- Python `int(s)`: `none` models the `ValueError` raised on a string that
is not an integer literal.  Modelled: surrounding whitespace, an optional
sign, a nonempty run of ASCII digits.  (CPython additionally accepts
underscore digit separators and non-ASCII digits; the sources never produce
such inputs.) -/
def pyInt (s : String) : Option Int :=
  let l := ((s.data.dropWhile isSpaceCh).reverse.dropWhile isSpaceCh).reverse
  let signed : Int × List Char :=
    match l with
    | '+' :: t => (1, t)
    | '-' :: t => (-1, t)
    | t => (1, t)
  if signed.2 ≠ [] ∧ signed.2.all isDigitCh then
    some (signed.1 * (digitsToNat signed.2 : Int))
  else
    none

/-! ## `config/settings.py` -/

/-- `Settings`: the environment-derived configuration consulted by the
subsystem.  `numWorkers` is `NUM_WORKERS = int(os.getenv("PYTEST_WORKERS",
"8"))` (also exported as `USERS_PER_ROLE`); `isCI` is
`os.getenv("CI", "false").lower() == "true"`. -/
structure Settings where
  numWorkers : Nat
  isCI : Bool
deriving Repr, DecidableEq

/-- `Settings.USERS_PER_ROLE = NUM_WORKERS`. -/
def Settings.usersPerRole (st : Settings) : Nat := st.numWorkers

/-- `Settings.IS_LOCAL = not IS_CI`. -/
def Settings.isLocal (st : Settings) : Bool := !st.isCI

/-- The default configuration: eight workers, not CI. -/
def defaultSettings : Settings := ⟨8, false⟩

/-- `Settings.get_user_email`: `f"{role.lower()}{number}@test.com"`. -/
def get_user_email (role : String) (number : Int) : String :=
  strLower role ++ intToStr number ++ "@test.com"

/-- `Settings.get_auth_file_path`: `@` and `.` in the email replaced by `_`,
wrapped as `.auth/auth_{safe}.json`. -/
def get_auth_file_path (user_email : String) : String :=
  ".auth/auth_" ++ strReplace (strReplace user_email "@" "_") "." "_" ++ ".json"

/-! ## `utils/worker_mapper.py` (duplicated in `tests/conftest.py` 168-210)

`WorkerMapper.extract_worker_number` and the module-level
`extract_worker_number` in conftest are textually identical, as are the two
`get_user_for_worker` copies; a single embedding covers both. -/

/-- `extract_worker_number(worker_id)`: `0` for `"master"` or an id not
starting with `"gw"`, else `int(worker_id.replace("gw", ""))`.  `none`
models the `ValueError` that `int` raises on a non-numeric residue. -/
def extract_worker_number (worker_id : String) : Option Int :=
  if worker_id = "master" ∨ startsW worker_id "gw" = false then some 0
  else pyInt (strReplace worker_id "gw" "")

/-- `get_user_for_worker(role, worker_id)`:
`user_num = (worker_num % 8) + 1` — the modulus is the literal `8`
(comment in source: "Map to 1-8"), not `settings.NUM_WORKERS` — then
`settings.get_user_email(role, user_num)`.  Python `%` on integers returns
a non-negative remainder, matching `Int.emod`. -/
def get_user_for_worker (role : String) (worker_id : String) : Option String :=
  (extract_worker_number worker_id).map (fun w => get_user_email role (w % 8 + 1))

/-! ## `data/test_data.py` (`TestDataHelper`) -/

/-- An item payload as built by `TestDataHelper.generate_item_data`.  Only
the fields consulted by the provisioning logic are modelled (`name`,
`description`, `item_type`, `category`, `is_active`); the numeric fields
(`price`, `weight`, `length`, `width`, `height`, `file_size`,
`duration_hours`) and `download_url` are constants never read back by the
subsystem. -/
structure ItemData where
  name : String
  description : String
  item_type : String
  category : String
  is_active : Option Bool
deriving Repr, DecidableEq

/-- `TestDataHelper.generate_item_data(name, item_type, is_active)`
restricted to the modelled fields.  `is_active = none` models the Python
default `None`, in which case the key is omitted from the payload. -/
def generate_item_data (name : String) (item_type : String) (is_active : Option Bool) : ItemData :=
  { name := name
    description := "Test item description for " ++ name ++ " with sufficient length for validation"
    item_type := item_type
    category := "TestCategory"
    is_active := is_active }

/-- `TestDataHelper.generate_seed_item_name(role, number, item_type)`:
`f"{settings.SEED_DATA_PREFIX}{item_type.capitalize()}_{role}{number}"`. -/
def generate_seed_item_name (role : String) (number : Int) (item_type : String) : String :=
  "SEED_" ++ pyCapitalize item_type ++ "_" ++ role ++ intToStr number

/-- A row of the user registry as returned by
`TestDataHelper.get_user_by_email` (fields `role`, `number`, `email`). -/
structure User where
  role : String
  number : Int
  email : String
deriving Repr, DecidableEq

/-- Modelled from the spec: the registry file `data/users.json` read by
`TestDataHelper.load_users` is not under `src/`.  Per spec §3/§6 an identity
is a role plus a slot number in `[1, N]`, rendered as
`role-as-lowercase + slot_number` with address `{role}{n}@test.com`, which
matches `Settings.get_user_email`.  `stdUsers` is that registry for the
default pool size 8. -/
def stdUsers : List User :=
  (["ADMIN", "EDITOR", "VIEWER"].map fun role =>
    (List.range 8).map fun i =>
      User.mk role (i + 1 : Nat) (get_user_email role (i + 1 : Nat))).flatten

/-- `TestDataHelper.get_user_by_email(email)`: linear scan of the registry;
`none` models the `ValueError` raised when no user matches. -/
def get_user_by_email (users : List User) (email : String) : Option User :=
  users.find? (fun u => u.email == email)

/-! ## Backend model (`utils/api_client.py`)

The CRUD backend is an external collaborator (spec §1/§6); `APIClient`
wraps it in HTTP calls.  `create_item` either returns the created record or
raises an exception whose text carries the HTTP status (`409` on conflict —
`_create_safe` detects this textually via `"409" in str(e) or "Conflict" in
str(e)`); `get_all_items(limit, search, status)` returns a list of records.
The client is modelled as a record of state-threaded functions so that both
an abstract backend and the concrete race stub below fit. -/

/-- A backend record (`Record` of spec §6): its unique name, its backend id
and its active flag (records are created active unless the payload says
otherwise). -/
structure Item where
  name : String
  id : Nat
  is_active : Bool
deriving Repr, DecidableEq

/-- Outcome of `APIClient.create_item`: the created record, or the text of
the raised exception (conflict is signalled by `"409"`/`"Conflict"`
occurring in that text, exactly what `_create_safe` tests). -/
inductive CreateResult where
  | ok : Item → CreateResult
  | err : String → CreateResult
deriving Repr, DecidableEq

/-- The `APIClient` surface used by the seed provisioner, threaded through
backend state `σ`.  `get_all_items limit search status` carries the three
query parameters the provisioner passes. -/
structure APIClientModel (σ : Type) where
  create_item : ItemData → σ → σ × CreateResult
  get_all_items : Nat → Option String → Option String → σ → σ × List Item

/-- Lift a stateless backend (pure functions of the request) to the client
interface. -/
def pureClient (create : ItemData → CreateResult)
    (query : Nat → Option String → Option String → List Item) : APIClientModel Unit :=
  { create_item := fun d _ => ((), create d)
    get_all_items := fun lim s st _ => ((), query lim s st) }

/-! ## Python dictionaries of seed items -/

/-- A Python dict mapping the lower-cased type key (`"physical"`,
`"digital"`, `"service"`) to the adopted record, as an insertion-ordered
association list. -/
abbrev SeedMap : Type := List (String × Item)

/-- Python `d[k] = v`: replace in place if the key exists, else append. -/
def dictInsert (m : SeedMap) (k : String) (v : Item) : SeedMap :=
  if (m.find? (fun p => p.1 == k)).isSome then
    m.map (fun p => if p.1 == k then (k, v) else p)
  else
    m ++ [(k, v)]

/-- Python `d.get(k)` / `k in d`. -/
def dictFind (m : SeedMap) (k : String) : Option Item :=
  (m.find? (fun p => p.1 == k)).map (fun p => p.2)

/-- The keys of a seed dict in insertion order. -/
def dictKeys (m : SeedMap) : List String := m.map (fun p => p.1)

/-- The item-type loop constant `["PHYSICAL", "DIGITAL", "SERVICE"]`. -/
def seedTypes : List String := ["PHYSICAL", "DIGITAL", "SERVICE"]

/-! ## `utils/seed_data_manager.py` (`SeedDataManager`) -/

section SeedDataManager

variable {σ : Type}

/-- `SeedDataManager._create_safe(client, item_data, seed_items_dict, key)`:
attempt the create; on an exception whose text contains `"409"` or
`"Conflict"`, re-query by the item's name (status `"inactive"` only when the
payload carried `is_active = False`, else `"active"`) and adopt the first
returned record with exactly that name; on any other exception, or when the
re-query finds nothing, log and leave the dict unchanged.  No exception
escapes (`except Exception` around the whole body).  The state-threaded
result pairs the backend state with the updated dict. -/
def create_safe (client : APIClientModel σ) (item_data : ItemData)
    (seed_items_dict : SeedMap) (key : String) (s : σ) : σ × SeedMap :=
  match client.create_item item_data s with
  | (s1, CreateResult.ok created) => (s1, dictInsert seed_items_dict key created)
  | (s1, CreateResult.err e) =>
    if strContains e "409" || strContains e "Conflict" then
      let status_param := if item_data.is_active == some false then "inactive" else "active"
      let qr := client.get_all_items 100 (some item_data.name) (some status_param) s1
      match (qr.2).find? (fun i => i.name == item_data.name) with
      | some existing => (qr.1, dictInsert seed_items_dict key existing)
      | none => (qr.1, seed_items_dict)
    else
      (s1, seed_items_dict)

/-- `SeedDataManager._create_admin_base_items(client, seed_items_dict)`:
for each type, create `f"SEED_{item_type}_admin1"` (the type name kept
upper-case) via `_create_safe`. -/
def create_admin_base_items (client : APIClientModel σ) (seed_items_dict : SeedMap)
    (s : σ) : σ × SeedMap :=
  seedTypes.foldl
    (fun acc item_type =>
      let key := strLower item_type
      let name := "SEED_" ++ item_type ++ "_admin1"
      create_safe client (generate_item_data name item_type none) acc.2 key acc.1)
    (s, seed_items_dict)

/-- `SeedDataManager._create_editor_items(client, user_email, seed_items_dict)`:
re-reads the user's `number` from the registry, then for each type creates
`f"SEED_{item_type}_editor{number}"` via `_create_safe`.  The registry
lookup is passed as the already-resolved `number` (the caller looked up the
same email one line earlier, so the second lookup returns the same row). -/
def create_editor_items (client : APIClientModel σ) (number : Int)
    (seed_items_dict : SeedMap) (s : σ) : σ × SeedMap :=
  seedTypes.foldl
    (fun acc item_type =>
      let key := strLower item_type
      let name := "SEED_" ++ item_type ++ "_editor" ++ intToStr number
      create_safe client (generate_item_data name item_type none) acc.2 key acc.1)
    (s, seed_items_dict)

/-- `SeedDataManager.check_existing_seed_items(user_email, token)`: look the
user up (any exception — including a failed lookup — is caught and yields
`{}`), fetch `get_all_items(limit=100, search="SEED_")`, and for each type
adopt the first returned record named
`generate_seed_item_name(role.lower(), number, item_type)`. -/
def check_existing_seed_items (client : APIClientModel σ) (users : List User)
    (user_email : String) (s : σ) : σ × SeedMap :=
  match get_user_by_email users user_email with
  | none => (s, [])
  | some user =>
    let role := strLower user.role
    let qr := client.get_all_items 100 (some "SEED_") none s
    let m := seedTypes.foldl
      (fun (m : SeedMap) item_type =>
        let expected := generate_seed_item_name role user.number item_type
        match (qr.2).find? (fun i => i.name == expected) with
        | some item => dictInsert m (strLower item_type) item
        | none => m)
      []
    (qr.1, m)

/-- `SeedDataManager.create_seed_items_for_user(user_email, token)`:
VIEWER identities return `{}` at once; ADMIN identities run
`_create_admin_base_items` only when `"admin1" in user_email`, any other
admin does nothing ("Reusing items created by admin1" — no lookup call is
made); EDITOR identities run `_create_editor_items`.  `none` models the
`ValueError` of `get_user_by_email` when the email is not registered. -/
def create_seed_items_for_user (client : APIClientModel σ) (users : List User)
    (user_email : String) (s : σ) : Option (σ × SeedMap) :=
  match get_user_by_email users user_email with
  | none => none
  | some user =>
    let role := strLower user.role
    if role == "viewer" then
      some (s, [])
    else
      let afterAdmin :=
        if role == "admin" then
          if strContains user_email "admin1" then create_admin_base_items client [] s
          else (s, [])
        else (s, [])
      if role == "editor" then
        some (create_editor_items client user.number afterAdmin.2 afterAdmin.1)
      else
        some afterAdmin

end SeedDataManager

/-! ## A concrete race stub backend

Spec §8 asks the conflict property to be checked "against a stub backend
that returns Conflict on the second and later create calls".  The stub's
store is the list of live records; create is an atomic compare-and-swap on
the record name (the backend's uniqueness key), search is substring match
on the name plus the active/inactive filter, mirroring the list endpoint's
contract in spec §6. -/

/-- Stub backend store: the list of live records. -/
abbrev StubState : Type := List Item

/-- Number of live records carrying a given name. -/
def countName (st : StubState) (n : String) : Nat :=
  (st.filter (fun it => it.name == n)).length

/-- The stub backend client: create conflicts (HTTP 409) iff a record with
the same name is live, otherwise appends a fresh record whose id is the
current store length.  The list endpoint of the stub returns every live
record regardless of the query parameters — legitimate for a stub, since
`_create_safe` and `check_existing_seed_items` select the record they adopt
by exact name on the client side; the parameters are threaded only for
signature fidelity. -/
def stubClient : APIClientModel StubState :=
  { create_item := fun d st =>
      if st.any (fun it => it.name == d.name) then
        (st, CreateResult.err "409 Client Error: Conflict for url")
      else
        let it : Item := { name := d.name, id := st.length, is_active := d.is_active.getD true }
        (st ++ [it], CreateResult.ok it)
    get_all_items := fun _ _ _ st => (st, st) }

/-! ## `utils/auth_manager.py` (`AuthManager`) and the auth fixtures of
`tests/conftest.py` (249-379)

`AuthManager.get_valid_auth_state` / `setup_auth_states` and the conftest
module-level `get_valid_auth_state` / `auth_states` implement the same
control flow (the conftest login obtains the token from `localStorage` only,
`AuthManager.login_and_save_state` from an API login with a `localStorage`
fallback; both produce an auth-state record and write it to the same
per-identity file).  One embedding covers both.

A Python `None` token and an empty-string token behave identically at every
consumer (`validate_token` rejects both via `if not token`, the test context
renders both as a falsy value), so tokens are modelled as `String` with `""`
standing for `None`. -/

/-- The persisted auth state: the bearer token plus the identity it belongs
to.  Cookies, storage state and `expires_at` are written but never read
back by the subsystem, so they are not modelled. -/
structure AuthState where
  token : String
  user_email : String
deriving Repr, DecidableEq

/-- The `.auth/` directory: one serialized `AuthState` per file path. -/
abbrev FS : Type := List (String × AuthState)

/-- File lookup by path. -/
def fsFind (fs : FS) (path : String) : Option AuthState :=
  (fs.find? (fun p => p.1 == path)).map (fun p => p.2)

/-- `json.dump(auth_state, f)`: overwrite or create the file. -/
def fsWrite (fs : FS) (path : String) (st : AuthState) : FS :=
  if (fs.find? (fun p => p.1 == path)).isSome then
    fs.map (fun p => if p.1 == path then (path, st) else p)
  else
    fs ++ [(path, st)]

/-- The external collaborators of the auth flow: the settings environment
(`IS_LOCAL`), backend token validation (`APIClient.validate_token`, total —
the Python wrapper catches every exception and returns `False`), and the
combined UI-plus-API login of `login_and_save_state` for an email, returning
the auth state to persist or the exception text of the raised
`AuthenticationException`. -/
structure AuthEnv where
  isLocal : Bool
  tokenValid : String → Bool
  loginFor : String → Except String AuthState

/-- `validate_token(token)`: `False` for a missing/empty token, otherwise
the backend's verdict. -/
def validate_token (env : AuthEnv) (token : String) : Bool :=
  if token = "" then false else env.tokenValid token

/-- `login_and_save_state(user_email, browser)`: on success the auth state
is written to `get_auth_file_path(user_email)` and returned; on failure the
`AuthenticationException` propagates and nothing is written (the exception
fires before the file write). -/
def login_and_save_state (env : AuthEnv) (fs : FS) (user_email : String) :
    FS × Except String AuthState :=
  match env.loginFor user_email with
  | Except.ok st => (fsWrite fs (get_auth_file_path user_email) st, Except.ok st)
  | Except.error e =>
    (fs, Except.error ("Authentication failed for " ++ user_email ++ ": " ++ e))

instance {ε α : Type} [DecidableEq ε] [DecidableEq α] : DecidableEq (Except ε α) := fun a b =>
  match a, b with
  | Except.ok x, Except.ok y =>
    if h : x = y then Decidable.isTrue (by rw [h]) else Decidable.isFalse (by simp [h])
  | Except.error x, Except.error y =>
    if h : x = y then Decidable.isTrue (by rw [h]) else Decidable.isFalse (by simp [h])
  | Except.ok _, Except.error _ => Decidable.isFalse (by simp)
  | Except.error _, Except.ok _ => Decidable.isFalse (by simp)

/-- Result of one `get_valid_auth_state` call: the (possibly updated) auth
directory, the returned state or propagated exception, and whether a login
attempt (`login_and_save_state`) was performed — the observable the
memoization claims count. -/
structure AuthFetch where
  fs : FS
  result : Except String AuthState
  didLogin : Bool
deriving Repr, DecidableEq

/-- `get_valid_auth_state(user_email, browser)`: if the per-identity auth
file exists *and* the run is local, load it and return it when its token
validates; in every other case fall through to `login_and_save_state`. -/
def get_valid_auth_state (env : AuthEnv) (fs : FS) (user_email : String) : AuthFetch :=
  match fsFind fs (get_auth_file_path user_email), env.isLocal with
  | some cached, true =>
    if validate_token env cached.token then
      ⟨fs, Except.ok cached, false⟩
    else
      let lr := login_and_save_state env fs user_email
      ⟨lr.1, lr.2, true⟩
  | _, _ =>
    let lr := login_and_save_state env fs user_email
    ⟨lr.1, lr.2, true⟩

/-- Result of the session-scoped `auth_states` fixture body
(`AuthManager.setup_auth_states`): the auth directory, the email-to-state
dict or the propagated exception, and the log of identities for which a
login attempt was made, in order. -/
structure SetupResult where
  fs : FS
  result : Except String (List (String × AuthState))
  log : List String
deriving Repr, DecidableEq

/-- `setup_auth_states(test_items, browser)` / the `auth_states` fixture:
iterate over `needed_users` (a Python set, hence duplicate-free) calling
`get_valid_auth_state` for each and collecting the states into a dict.  An
exception raised for one identity propagates out of the loop immediately —
the remaining identities are not processed.  pytest evaluates the
session-scoped fixture body once per session, which the embedding models as
a single call. -/
def setup_auth_states (env : AuthEnv) (fs : FS) : List String → SetupResult
  | [] => ⟨fs, Except.ok [], []⟩
  | u :: rest =>
    let f := get_valid_auth_state env fs u
    let log0 : List String := if f.didLogin then [u] else []
    match f.result with
    | Except.error e => ⟨f.fs, Except.error e, log0⟩
    | Except.ok st =>
      let r := setup_auth_states env f.fs rest
      ⟨r.fs, r.result.map (fun l => (u, st) :: l), log0 ++ r.log⟩

/-! ## `tests/conftest.py`: `TestContext` (84-113) and the `test_context`
fixture (585-627) -/

/-- Result of `TestContext.get_seed_item`: the seed record, or the Python
default `{}` for a type not in the dict. -/
inductive SeedItemResult where
  | item : Item → SeedItemResult
  | emptyDict : SeedItemResult
deriving Repr, DecidableEq

/-- The `TestContext` dataclass. -/
structure TestContext where
  user_email : String
  user_role : String
  auth_token : String
  seed_items : SeedMap
  worker_id : String
deriving Repr, DecidableEq

/-- `TestContext.get_seed_item(item_type)`:
`self.seed_items.get(item_type.lower(), {})`. -/
def TestContext.get_seed_item (ctx : TestContext) (item_type : String) : SeedItemResult :=
  match dictFind ctx.seed_items (strLower item_type) with
  | some it => SeedItemResult.item it
  | none => SeedItemResult.emptyDict

/-- Dict lookup in the session `auth_states` mapping. -/
def lookupAuth (authStates : List (String × AuthState)) (email : String) : Option AuthState :=
  (authStates.find? (fun p => p.1 == email)).map (fun p => p.2)

/-- Dict lookup in the session `seed_data` mapping. -/
def lookupSeed (seedData : List (String × SeedMap)) (email : String) : Option SeedMap :=
  (seedData.find? (fun p => p.1 == email)).map (fun p => p.2)

/-- The `test_context` fixture: resolve role (marker, default `"ADMIN"`) and
worker to a user email, then assemble the context with
`auth_states.get(user_email, {})`, `auth_state.get("token", "")` and
`seed_data.get(user_email, {})` — every lookup has a non-raising default.
`none` models only the upstream `ValueError` of `get_user_for_worker` on a
malformed worker id. -/
def test_context (authStates : List (String × AuthState))
    (seedData : List (String × SeedMap)) (roleMarker : Option String)
    (worker_id : String) : Option TestContext :=
  let role := roleMarker.getD "ADMIN"
  (get_user_for_worker role worker_id).map (fun user_email =>
    { user_email := user_email
      user_role := role
      auth_token := match lookupAuth authStates user_email with
        | none => ""
        | some st => st.token
      seed_items := (lookupSeed seedData user_email).getD []
      worker_id := worker_id })

/-! ## Proof-harness definitions

Concrete environments, backends and iteration schemes used to state and
witness the theorems below.  `provisionRace` realises the scenario of spec
§8: N provisioning attempts for the same record, interleaved at the backend
(each backend call is atomic; the attempts run back-to-back, which is one of
the arbitrary interleavings the conflict handling must tolerate). -/

/-- N sequential provisioning attempts of the same `(item_data, key)` pair
against the stub backend, each starting (as in `_create_safe`) from an
empty dict; collects every caller's returned dict. -/
def provisionRace (d : ItemData) (k : String) : Nat → StubState → StubState × List SeedMap
  | 0, st => (st, [])
  | Nat.succ n, st =>
    let r := create_safe stubClient d List.nil k st
    let rest := provisionRace d k n r.1
    (rest.1, r.2 :: rest.2)

/-- A benign auth environment: local run, every token validates, every
login succeeds. -/
def demoEnv : AuthEnv :=
  { isLocal := true
    tokenValid := fun _ => true
    loginFor := fun e => Except.ok (AuthState.mk "tok" e) }

/-- An auth directory holding one valid cached state for `admin1`. -/
def demoFS : FS :=
  [(get_auth_file_path "admin1@test.com", AuthState.mk "tok" "admin1@test.com")]

/-- An auth environment in which exactly one identity (`editor1`) cannot be
authenticated; caching is disabled (CI-style run). -/
def failEnv : AuthEnv :=
  { isLocal := false
    tokenValid := fun _ => false
    loginFor := fun e =>
      if e == "editor1@test.com" then Except.error "invalid credentials"
      else Except.ok (AuthState.mk "tok" e) }

/-- A backend whose create call fails with a non-conflict error (HTTP 500)
for exactly one record name and succeeds otherwise. -/
def c6Create : ItemData → CreateResult := fun d =>
  if d.name == "SEED_PHYSICAL_editor2" then
    CreateResult.err "500 Server Error: Internal Server Error for url"
  else CreateResult.ok (Item.mk d.name 7 true)

/-- A list endpoint that never returns records. -/
def c6Query : Nat → Option String → Option String → List Item := fun _ _ _ => []

/-- The stateless client built from `c6Create` and `c6Query`. -/
def c6Client : APIClientModel Unit := pureClient c6Create c6Query

/-- A backend whose create call always succeeds. -/
def allOkCreate : ItemData → CreateResult := fun d => CreateResult.ok (Item.mk d.name 0 true)

/-- A list endpoint that never returns records. -/
def emptyQuery : Nat → Option String → Option String → List Item := fun _ _ _ => []

/-! ## Helper lemmas -/

/-- `_create_safe` against the stub when no record with the name is live:
the fresh record is created and inserted. -/
lemma create_safe_stub_fresh (d : ItemData) (k : String) (m : SeedMap) (st : StubState)
    (hfresh : st.any (fun it => it.name == d.name) = false) :
    create_safe stubClient d m k st =
      (st ++ [Item.mk d.name st.length (d.is_active.getD true)],
       dictInsert m k (Item.mk d.name st.length (d.is_active.getD true))) := by
  simp only [create_safe, stubClient]
  rw [hfresh]
  rfl

/-- `_create_safe` against the stub when a record with the name is live:
the create yields 409, the re-query runs, and the first record with exactly
that name is adopted. -/
lemma create_safe_stub_conflict (d : ItemData) (k : String) (m : SeedMap) (st : StubState)
    (it : Item)
    (hdup : st.any (fun x => x.name == d.name) = true)
    (hfind : st.find? (fun i => i.name == d.name) = some it) :
    create_safe stubClient d m k st = (st, dictInsert m k it) := by
  simp only [create_safe, stubClient]
  rw [hdup]
  rw [if_pos rfl]
  change
    (if (strContains "409 Client Error: Conflict for url" "409" ||
         strContains "409 Client Error: Conflict for url" "Conflict") = true then
      (match st.find? (fun i => i.name == d.name) with
       | some existing => (st, dictInsert m k existing)
       | none => (st, m))
     else (st, m)) = (st, dictInsert m k it)
  rw [if_pos (by decide)]
  rw [hfind]

/-- With an always-succeeding backend, `_create_admin_base_items` populates
exactly the three type keys. -/
lemma create_admin_base_items_keys (create : ItemData → CreateResult)
    (query : Nat → Option String → Option String → List Item)
    (hok : ∀ d, ∃ it, create d = CreateResult.ok it) :
    dictKeys (create_admin_base_items (pureClient create query) [] ()).2 =
      ["physical", "digital", "service"] := by
  obtain ⟨it1, h1⟩ := hok (generate_item_data "SEED_PHYSICAL_admin1" "PHYSICAL" none)
  obtain ⟨it2, h2⟩ := hok (generate_item_data "SEED_DIGITAL_admin1" "DIGITAL" none)
  obtain ⟨it3, h3⟩ := hok (generate_item_data "SEED_SERVICE_admin1" "SERVICE" none)
  have e1 : strLower "PHYSICAL" = "physical" := by decide
  have e2 : strLower "DIGITAL" = "digital" := by decide
  have e3 : strLower "SERVICE" = "service" := by decide
  simp [create_admin_base_items, seedTypes, create_safe, pureClient, h1, h2, h3,
    e1, e2, e3, dictInsert, dictKeys]

/-- With an always-succeeding backend, `_create_editor_items` populates
exactly the three type keys. -/
lemma create_editor_items_keys (create : ItemData → CreateResult)
    (query : Nat → Option String → Option String → List Item)
    (hok : ∀ d, ∃ it, create d = CreateResult.ok it) (n : Int) :
    dictKeys (create_editor_items (pureClient create query) n [] ()).2 =
      ["physical", "digital", "service"] := by
  obtain ⟨it1, h1⟩ := hok (generate_item_data ("SEED_PHYSICAL_editor" ++ intToStr n) "PHYSICAL" none)
  obtain ⟨it2, h2⟩ := hok (generate_item_data ("SEED_DIGITAL_editor" ++ intToStr n) "DIGITAL" none)
  obtain ⟨it3, h3⟩ := hok (generate_item_data ("SEED_SERVICE_editor" ++ intToStr n) "SERVICE" none)
  have e1 : strLower "PHYSICAL" = "physical" := by decide
  have e2 : strLower "DIGITAL" = "digital" := by decide
  have e3 : strLower "SERVICE" = "service" := by decide
  simp [create_editor_items, seedTypes, create_safe, pureClient, h1, h2, h3,
    e1, e2, e3, dictInsert, dictKeys]

/-- The login log of the `auth_states` fixture is a sublist of the iterated
user list: each identity contributes at most its own entry, in order. -/
lemma setup_log_sublist (env : AuthEnv) :
    ∀ (users : List String) (fs : FS), ((setup_auth_states env fs users).log).Sublist users := by
  intro users
  induction users with
  | nil => intro fs; simp [setup_auth_states]
  | cons u rest ih =>
    intro fs
    simp only [setup_auth_states]
    rcases hres : (get_valid_auth_state env fs u).result with e | st
    · cases hd : (get_valid_auth_state env fs u).didLogin
      · simp [hd]
      · simp [hd]
    · cases hd : (get_valid_auth_state env fs u).didLogin
      · simpa [hd] using (ih (get_valid_auth_state env fs u).fs).cons u
      · simpa [hd] using (ih (get_valid_auth_state env fs u).fs).cons₂ u

/-! ## Claim theorems -/

/-- C1 (counterexample): an ADMIN identity other than the first slot is a
non-VIEWER identity, yet `create_seed_items_for_user` returns the *empty*
dict for it — no create and also no lookup call is made ("Reusing items
created by admin1" does nothing) — even when the three shared records
already exist on the backend (here: the stub store right after admin1
provisioned them).  This refutes "for every non-VIEWER identity … exactly
one record for each of the three types … ADMIN identities other than the
first slot still obtain one record per type, via lookup". -/
theorem admin_alias_gets_empty_mapping :
    (do
      let r1 ← create_seed_items_for_user stubClient stdUsers "admin1@test.com" List.nil
      create_seed_items_for_user stubClient stdUsers "admin2@test.com" r1.1) =
      some ([Item.mk "SEED_PHYSICAL_admin1" 0 true, Item.mk "SEED_DIGITAL_admin1" 1 true,
             Item.mk "SEED_SERVICE_admin1" 2 true], (List.nil : SeedMap)) ∧
    (get_user_by_email stdUsers "admin2@test.com").map User.role = some "ADMIN" := by
  refine ⟨by decide, by decide⟩

/-- C1 (amended): against a backend whose create calls succeed,
`create_seed_items_for_user` returns the empty dict for VIEWER identities;
EDITOR identities and the first-slot ADMIN identity (email containing
`"admin1"`) receive exactly one record per type (keys `physical`, `digital`,
`service`); every other ADMIN identity receives the *empty* dict — neither
a create nor a lookup call is issued for it. -/
theorem seed_role_policy (create : ItemData → CreateResult)
    (query : Nat → Option String → Option String → List Item)
    (hok : ∀ d, ∃ it, create d = CreateResult.ok it)
    (users : List User) (user_email : String) (u : User)
    (hu : get_user_by_email users user_email = some u) :
    (strLower u.role = "viewer" →
      create_seed_items_for_user (pureClient create query) users user_email () =
        some ((), [])) ∧
    (strLower u.role = "admin" → strContains user_email "admin1" = false →
      create_seed_items_for_user (pureClient create query) users user_email () =
        some ((), [])) ∧
    (strLower u.role = "admin" → strContains user_email "admin1" = true →
      (create_seed_items_for_user (pureClient create query) users user_email ()).map
          (fun p => dictKeys p.2) = some ["physical", "digital", "service"]) ∧
    (strLower u.role = "editor" →
      (create_seed_items_for_user (pureClient create query) users user_email ()).map
          (fun p => dictKeys p.2) = some ["physical", "digital", "service"]) := by
  refine ⟨?_, ?_, ?_, ?_⟩
  · intro hv
    simp [create_seed_items_for_user, hu, hv]
  · intro ha hc
    simp [create_seed_items_for_user, hu, ha, hc]
  · intro ha hc
    simp [create_seed_items_for_user, hu, ha, hc,
      create_admin_base_items_keys create query hok]
  · intro he
    simp [create_seed_items_for_user, hu, he,
      create_editor_items_keys create query hok u.number]

/-- Witness for the amended C1 theorem: the editor2 identity against an
always-succeeding backend obtains exactly one record per type. -/
theorem seed_role_policy_witness :
    (create_seed_items_for_user (pureClient allOkCreate emptyQuery) stdUsers
        "editor2@test.com" ()).map (fun p => dictKeys p.2) =
      some ["physical", "digital", "service"] :=
  (seed_role_policy allOkCreate emptyQuery (fun d => ⟨Item.mk d.name 0 true, rfl⟩)
      stdUsers "editor2@test.com" (User.mk "EDITOR" 2 "editor2@test.com")
      (by decide)).2.2.2 (by decide)

/-- C2: conflict tolerance and convergence of `_create_safe`.  Starting
from a store with no record of the target name, any number `N ≥ 1` of
provisioning attempts for the same `(item_data, key)` against the stub
backend (first create succeeds, later creates get 409, the 409 path
re-queries by the record's name and adopts) leaves exactly one live record
with that name, and every caller's returned dict maps the key to that same
record (same backend id) — no attempt surfaces an error, by construction of
the total `create_safe`. -/
theorem conflict_adoption_converges (d : ItemData) (k : String) (st0 : StubState) (N : Nat)
    (hfresh : ∀ x ∈ st0, x.name ≠ d.name) (hN : 1 ≤ N) :
    countName (provisionRace d k N st0).1 d.name = 1 ∧
    ∃ it, it.name = d.name ∧ it ∈ (provisionRace d k N st0).1 ∧
      ∀ m ∈ (provisionRace d k N st0).2, dictFind m k = some it := by
  obtain ⟨n, rfl⟩ : ∃ n, N = n + 1 := ⟨N - 1, by omega⟩
  set it0 : Item := Item.mk d.name st0.length (d.is_active.getD true) with hit0
  have hfreshB : st0.any (fun x => x.name == d.name) = false := by
    rw [List.any_eq_false]
    intro x hx
    simp [hfresh x hx]
  have hstep1 : create_safe stubClient d List.nil k st0 =
      (st0 ++ [it0], dictInsert List.nil k it0) :=
    create_safe_stub_fresh d k List.nil st0 hfreshB
  have hdup1 : (st0 ++ [it0]).any (fun x => x.name == d.name) = true := by
    simp [List.any_append, hit0]
  have hfind1 : (st0 ++ [it0]).find? (fun i => i.name == d.name) = some it0 := by
    rw [List.find?_append]
    have hnone : st0.find? (fun i => i.name == d.name) = none := by
      rw [List.find?_eq_none]
      intro x hx
      simp [hfresh x hx]
    rw [hnone]
    simp [hit0]
  have hsteady : ∀ m, provisionRace d k m (st0 ++ [it0]) =
      (st0 ++ [it0], List.replicate m (dictInsert List.nil k it0)) := by
    intro m
    induction m with
    | zero => simp [provisionRace]
    | succ j ih =>
      simp only [provisionRace,
        create_safe_stub_conflict d k List.nil (st0 ++ [it0]) it0 hdup1 hfind1, ih]
      simp [List.replicate_succ]
  have hrun : provisionRace d k (n + 1) st0 =
      (st0 ++ [it0],
       dictInsert List.nil k it0 :: List.replicate n (dictInsert List.nil k it0)) := by
    simp only [provisionRace, hstep1, hsteady n]
  rw [hrun]
  constructor
  · unfold countName
    rw [List.filter_append]
    have hl : st0.filter (fun x => x.name == d.name) = [] := by
      rw [List.filter_eq_nil_iff]
      intro x hx
      simp [hfresh x hx]
    rw [hl]
    simp [hit0]
  · refine ⟨it0, rfl, by simp, ?_⟩
    intro m hm
    have hmeq : m = dictInsert List.nil k it0 := by
      rcases List.mem_cons.mp hm with h | h
      · exact h
      · exact (List.mem_replicate.mp h).2
    rw [hmeq]
    simp [dictInsert, dictFind]

/-- Witness for C2: three racing provisioning attempts for editor3's
PHYSICAL seed record starting from an empty store. -/
theorem conflict_adoption_converges_witness :
    countName
        (provisionRace (generate_item_data "SEED_PHYSICAL_editor3" "PHYSICAL" none)
          "physical" 3 List.nil).1
        (generate_item_data "SEED_PHYSICAL_editor3" "PHYSICAL" none).name = 1 ∧
    ∃ it, it.name = (generate_item_data "SEED_PHYSICAL_editor3" "PHYSICAL" none).name ∧
      it ∈ (provisionRace (generate_item_data "SEED_PHYSICAL_editor3" "PHYSICAL" none)
          "physical" 3 List.nil).1 ∧
      ∀ m ∈ (provisionRace (generate_item_data "SEED_PHYSICAL_editor3" "PHYSICAL" none)
          "physical" 3 List.nil).2, dictFind m "physical" = some it :=
  conflict_adoption_converges (generate_item_data "SEED_PHYSICAL_editor3" "PHYSICAL" none)
    "physical" List.nil 3 (by simp) (by decide)

/-- C3: at most one authentication attempt per identity per session.  The
session-scoped `auth_states` fixture body (evaluated once per session by
pytest) iterates the duplicate-free `needed_users` set; however many tests
later request the same identity, the login log records that identity at
most once. -/
theorem login_once_per_identity (env : AuthEnv) (fs : FS) (users : List String)
    (hnodup : users.Nodup) (email : String) :
    ((setup_auth_states env fs users).log).count email ≤ 1 :=
  le_trans ((setup_log_sublist env users fs).count_le email)
    (List.nodup_iff_count_le_one.mp hnodup email)

/-- Witness for C3: a two-identity session performs at most one login for
`admin1`. -/
theorem login_once_per_identity_witness :
    ((setup_auth_states demoEnv List.nil
        ["admin1@test.com", "editor1@test.com"]).log).count "admin1@test.com" ≤ 1 :=
  login_once_per_identity demoEnv List.nil ["admin1@test.com", "editor1@test.com"]
    (by decide) "admin1@test.com"

/-- C4 (code_bug): the canonical-name function is *not* used consistently as
the join key in `SeedDataManager`.  `generate_seed_item_name` capitalizes
the type (`SEED_Physical_admin1`, as its own docstring example shows), but
`_create_admin_base_items` hardcodes the upper-case type
(`SEED_PHYSICAL_admin1`), so `check_existing_seed_items` — which computes
the expected names via `generate_seed_item_name` — can never find the
records `create_seed_items_for_user` just created: run against the stub
backend, admin1 creates its three records and the very next existence
lookup for the same identity returns the empty dict. -/
theorem seed_name_join_key_mismatch :
    generate_seed_item_name "admin" 1 "PHYSICAL" = "SEED_Physical_admin1" ∧
    (create_seed_items_for_user stubClient stdUsers "admin1@test.com" List.nil).map
        (fun p => p.1.map Item.name) =
      some ["SEED_PHYSICAL_admin1", "SEED_DIGITAL_admin1", "SEED_SERVICE_admin1"] ∧
    "SEED_PHYSICAL_admin1" ≠ generate_seed_item_name "admin" 1 "PHYSICAL" ∧
    (do
      let r1 ← create_seed_items_for_user stubClient stdUsers "admin1@test.com" List.nil
      pure (check_existing_seed_items stubClient stdUsers "admin1@test.com" r1.1).2) =
      some (List.nil : SeedMap) := by
  refine ⟨by decide, by decide, by decide, by decide⟩

/-- C5 (counterexample): a login failure for one identity does *not* stay
scoped to that identity.  With `editor1` failing to authenticate, the
`auth_states` fixture body propagates the exception: the whole session
setup returns the error (so every test depending on `auth_states` fails,
whatever identity it needs) and `editor2` — later in the iteration — is
never even attempted (the login log stops at `editor1`). -/
theorem auth_failure_not_scoped :
    setup_auth_states failEnv List.nil ["editor1@test.com", "editor2@test.com"] =
      SetupResult.mk List.nil
        (Except.error "Authentication failed for editor1@test.com: invalid credentials")
        ["editor1@test.com"] := by
  decide

/-- C5 (amended): a credential failure for one identity aborts the session
auth setup at that point: provided every identity before it succeeded, the
fixture result is the propagated authentication error and no identity after
the failing one is ever attempted (the login log is confined to the
already-processed prefix plus the failing identity). -/
theorem auth_failure_aborts_session (env : AuthEnv) :
    ∀ (pre : List String) (fs : FS) (u : String) (rest : List String) (e : String)
      (l : List (String × AuthState)),
      (setup_auth_states env fs pre).result = Except.ok l →
      (get_valid_auth_state env (setup_auth_states env fs pre).fs u).result = Except.error e →
      (setup_auth_states env fs (pre ++ u :: rest)).result = Except.error e ∧
      (setup_auth_states env fs (pre ++ u :: rest)).log.Sublist (pre ++ [u]) := by
  intro pre
  induction pre with
  | nil =>
    intro fs u rest e l hpre hu
    simp only [setup_auth_states, List.nil_append] at hu ⊢
    rw [hu]
    cases hd : (get_valid_auth_state env fs u).didLogin
    · simp [hd]
    · simp [hd]
  | cons v pretl ih =>
    intro fs u rest e l hpre hu
    rcases hres : (get_valid_auth_state env fs v).result with e0 | st
    · exfalso
      simp only [setup_auth_states, hres] at hpre
      exact Except.noConfusion hpre
    · have hpre2 := hpre
      simp only [setup_auth_states, hres] at hpre2
      obtain ⟨l2, hl2⟩ : ∃ l2,
          (setup_auth_states env (get_valid_auth_state env fs v).fs pretl).result =
            Except.ok l2 := by
        rcases hx : (setup_auth_states env (get_valid_auth_state env fs v).fs pretl).result
          with e1 | l1
        · rw [hx] at hpre2
          simp [Except.map] at hpre2
        · exact ⟨l1, rfl⟩
      have hfs : (setup_auth_states env fs (v :: pretl)).fs =
          (setup_auth_states env (get_valid_auth_state env fs v).fs pretl).fs := by
        simp only [setup_auth_states, hres]
      rw [hfs] at hu
      obtain ⟨h1, h2⟩ := ih (get_valid_auth_state env fs v).fs u rest e l2 hl2 hu
      constructor
      · simp only [List.cons_append, setup_auth_states, hres, List.append_eq, h1]
        rfl
      · simp only [List.cons_append, setup_auth_states, hres, List.append_eq, h1]
        cases hd : (get_valid_auth_state env fs v).didLogin
        · simpa [hd] using h2.cons v
        · simpa [hd] using h2.cons₂ v

/-- Witness for the amended C5 theorem: `editor2` succeeds, then `editor1`
fails, and `editor3` (after the failure) is never attempted. -/
theorem auth_failure_aborts_session_witness :
    (setup_auth_states failEnv List.nil
        (["editor2@test.com"] ++ "editor1@test.com" :: ["editor3@test.com"])).result =
      Except.error "Authentication failed for editor1@test.com: invalid credentials" ∧
    (setup_auth_states failEnv List.nil
        (["editor2@test.com"] ++ "editor1@test.com" :: ["editor3@test.com"])).log.Sublist
      (["editor2@test.com"] ++ ["editor1@test.com"]) :=
  auth_failure_aborts_session failEnv ["editor2@test.com"] List.nil "editor1@test.com"
    ["editor3@test.com"]
    "Authentication failed for editor1@test.com: invalid credentials"
    [("editor2@test.com", AuthState.mk "tok" "editor2@test.com")] (by decide) (by decide)

/-- C6 (counterexample): a non-conflict create failure (HTTP 500 on the
PHYSICAL record) does *not* make the provisioner raise a seed failure: all
exceptions are caught inside `_create_safe` ("Other errors - log and
skip"), the call returns normally (`isSome`), and the dict simply lacks the
failed type while the other two types were attempted and populated. -/
theorem seed_create_error_swallowed :
    (create_seed_items_for_user c6Client stdUsers "editor2@test.com" ()).map
        (fun p => dictKeys p.2) = some ["digital", "service"] ∧
    (create_seed_items_for_user c6Client stdUsers "editor2@test.com" ()).isSome = true := by
  refine ⟨by decide, by decide⟩

/-- C6 (amended): when one type's create fails with a non-conflict error,
`SeedDataManager` logs and skips that `(identity, type)` — no exception is
raised and the failed type is simply absent from the returned dict — while
provisioning of the other two types is still attempted (they appear in the
dict when their creates succeed). -/
theorem seed_create_error_scoped (create : ItemData → CreateResult)
    (query : Nat → Option String → Option String → List Item)
    (users : List User) (user_email : String) (u : User)
    (hu : get_user_by_email users user_email = some u)
    (hrole : strLower u.role = "editor")
    (msg : String)
    (hnc : (strContains msg "409" || strContains msg "Conflict") = false)
    (h1 : create (generate_item_data ("SEED_PHYSICAL_editor" ++ intToStr u.number)
        "PHYSICAL" none) = CreateResult.err msg)
    (it2 it3 : Item)
    (h2 : create (generate_item_data ("SEED_DIGITAL_editor" ++ intToStr u.number)
        "DIGITAL" none) = CreateResult.ok it2)
    (h3 : create (generate_item_data ("SEED_SERVICE_editor" ++ intToStr u.number)
        "SERVICE" none) = CreateResult.ok it3) :
    create_seed_items_for_user (pureClient create query) users user_email () =
      some ((), [("digital", it2), ("service", it3)]) := by
  obtain ⟨hn1, hn2⟩ := Bool.or_eq_false_iff.mp hnc
  have e1 : strLower "PHYSICAL" = "physical" := by decide
  have e2 : strLower "DIGITAL" = "digital" := by decide
  have e3 : strLower "SERVICE" = "service" := by decide
  simp [create_seed_items_for_user, hu, hrole, create_editor_items, seedTypes,
    create_safe, pureClient, h1, h2, h3, hn1, hn2, e1, e2, e3, dictInsert]

/-- Witness for the amended C6 theorem at the concrete failing backend. -/
theorem seed_create_error_scoped_witness :
    create_seed_items_for_user (pureClient c6Create c6Query) stdUsers "editor2@test.com" () =
      some ((), [("digital", Item.mk "SEED_DIGITAL_editor2" 7 true),
                 ("service", Item.mk "SEED_SERVICE_editor2" 7 true)]) :=
  seed_create_error_scoped c6Create c6Query stdUsers "editor2@test.com"
    (User.mk "EDITOR" 2 "editor2@test.com") (by decide) (by decide)
    "500 Server Error: Internal Server Error for url" (by decide) (by decide)
    (Item.mk "SEED_DIGITAL_editor2" 7 true) (Item.mk "SEED_SERVICE_editor2" 7 true)
    (by decide) (by decide)

/-- C7 (counterexample): the claim ties the slot to `(ordinal mod N) + 1`
for pool size `N = Settings.USERS_PER_ROLE = NUM_WORKERS`, but
`get_user_for_worker` hardcodes the modulus `8`.  With the legal
configuration `PYTEST_WORKERS=4` (pool size 4), worker `gw5` resolves to
`admin6` — slot 6, outside the pool `[1, 4]` — while the claimed formula
`(5 mod 4) + 1 = 2` demands `admin2`. -/
theorem worker_pool_size_not_consulted :
    (Settings.mk 4 false).usersPerRole = 4 ∧
    get_user_for_worker "ADMIN" "gw5" = some "admin6@test.com" ∧
    get_user_email "ADMIN" ((5 : Int) % (4 : Int) + 1) = "admin2@test.com" ∧
    "admin6@test.com" ≠ "admin2@test.com" := by
  refine ⟨rfl, by decide, by decide, by decide⟩

/-- C7 (amended): the slot formula is `(ordinal mod 8) + 1` with the
constant `8` hardcoded (independent of the configured pool size), so at
most 8 distinct accounts per role are ever used; concretely `gw0` resolves
to `admin1` and `gw9` to `admin2`. -/
theorem worker_slot_mod8 :
    (∀ role worker_id w, extract_worker_number worker_id = some w →
      get_user_for_worker role worker_id = some (get_user_email role (w % 8 + 1)) ∧
      1 ≤ w % 8 + 1 ∧ w % 8 + 1 ≤ 8) ∧
    get_user_for_worker "ADMIN" "gw0" = some "admin1@test.com" ∧
    get_user_for_worker "ADMIN" "gw9" = some "admin2@test.com" := by
  refine ⟨?_, by decide, by decide⟩
  intro role worker_id w h
  refine ⟨by simp [get_user_for_worker, h], ?_, ?_⟩
  · have h0 := Int.emod_nonneg w (by norm_num : (8 : Int) ≠ 0)
    omega
  · have h8 := Int.emod_lt_of_pos w (by norm_num : (0 : Int) < 8)
    omega

/-- Witness for the amended C7 theorem at `role = "ADMIN"`,
`worker_id = "gw9"`, ordinal 9. -/
theorem worker_slot_mod8_witness :
    get_user_for_worker "ADMIN" "gw9" = some (get_user_email "ADMIN" (9 % 8 + 1)) ∧
    1 ≤ (9 : Int) % 8 + 1 ∧ (9 : Int) % 8 + 1 ≤ 8 :=
  worker_slot_mod8.1 "ADMIN" "gw9" 9 (by decide)

/-- C8 (counterexample): `extract_worker_number` is *not* total: on a
malformed id that starts with `"gw"` but whose residue is not an integer
literal — `"gwabc"`, or the bare `"gw"` whose residue is empty —
`int(...)` raises `ValueError` (modelled as `none`) instead of falling back
to ordinal 0. -/
theorem extract_worker_number_raises :
    extract_worker_number "gwabc" = none ∧ extract_worker_number "gw" = none := by
  refine ⟨by decide, by decide⟩

/-- C8 (amended): `"master"` and every runtime id that does not start with
`"gw"` fall back to ordinal 0; an id that does start with `"gw"` is mapped
to `int(runtime_id.replace("gw", ""))`, which raises (returns `none`) when
that residue is not an integer literal. -/
theorem extract_worker_number_fallback :
    (∀ worker_id, startsW worker_id "gw" = false → extract_worker_number worker_id = some 0) ∧
    extract_worker_number "master" = some 0 ∧
    (∀ worker_id, startsW worker_id "gw" = true →
      extract_worker_number worker_id = pyInt (strReplace worker_id "gw" "")) ∧
    extract_worker_number "gw7" = some 7 := by
  refine ⟨?_, by decide, ?_, by decide⟩
  · intro worker_id h
    simp [extract_worker_number, h]
  · intro worker_id h
    have hm : worker_id ≠ "master" := by
      rintro rfl
      exact absurd h (by decide)
    simp [extract_worker_number, h, hm]

/-- Witness for the amended C8 theorem: a non-`gw` id falls back to 0, and
a `gw` id goes through `int` on the stripped residue. -/
theorem extract_worker_number_fallback_witness :
    extract_worker_number "worker-3" = some 0 ∧
    extract_worker_number "gw12" = pyInt (strReplace "gw12" "gw" "") :=
  ⟨extract_worker_number_fallback.1 "worker-3" (by decide),
   extract_worker_number_fallback.2.2.1 "gw12" (by decide)⟩

/-- C9: cache policy of `get_valid_auth_state`.  No login is performed iff
the per-identity auth file exists, the run is local, and the cached token
validates (first conjunct; the cached state is then returned unchanged,
second conjunct); in every other case a login is attempted and, when it
succeeds, its result is returned and overwrites the per-identity cache file
(third conjunct). -/
theorem auth_cache_policy (env : AuthEnv) (fs : FS) (user_email : String) :
    ((get_valid_auth_state env fs user_email).didLogin = false ↔
      env.isLocal = true ∧ ∃ cached,
        fsFind fs (get_auth_file_path user_email) = some cached ∧
        validate_token env cached.token = true) ∧
    (∀ cached, env.isLocal = true →
      fsFind fs (get_auth_file_path user_email) = some cached →
      validate_token env cached.token = true →
      get_valid_auth_state env fs user_email = ⟨fs, Except.ok cached, false⟩) ∧
    ((get_valid_auth_state env fs user_email).didLogin = true →
      ∀ st, env.loginFor user_email = Except.ok st →
      (get_valid_auth_state env fs user_email).fs =
        fsWrite fs (get_auth_file_path user_email) st ∧
      (get_valid_auth_state env fs user_email).result = Except.ok st) := by
  rcases hf : fsFind fs (get_auth_file_path user_email) with _ | cached
  · refine ⟨?_, ?_, ?_⟩
    · refine iff_of_false ?_ ?_
      · cases hl : env.isLocal <;>
          simp [get_valid_auth_state, hf, hl, login_and_save_state]
      · rintro ⟨_, c, hc, _⟩
        exact Option.noConfusion hc
    · intro c _ hc _
      exact Option.noConfusion hc
    · intro _ st hst
      cases hl : env.isLocal <;>
        simp [get_valid_auth_state, hf, hl, login_and_save_state, hst]
  · cases hl : env.isLocal
    · refine ⟨?_, ?_, ?_⟩
      · refine iff_of_false ?_ ?_
        · simp [get_valid_auth_state, hf, hl, login_and_save_state]
        · rintro ⟨hlt, _⟩
          exact Bool.noConfusion hlt
      · intro c hlt _ _
        exact Bool.noConfusion hlt
      · intro _ st hst
        simp [get_valid_auth_state, hf, hl, login_and_save_state, hst]
    · by_cases hv : validate_token env cached.token = true
      · refine ⟨?_, ?_, ?_⟩
        · exact iff_of_true (by simp [get_valid_auth_state, hf, hl, hv])
            ⟨rfl, cached, rfl, hv⟩
        · intro c _ hc hvc
          obtain rfl := Option.some.inj hc
          simp [get_valid_auth_state, hf, hl, hv]
        · intro hd
          simp [get_valid_auth_state, hf, hl, hv] at hd
      · refine ⟨?_, ?_, ?_⟩
        · refine iff_of_false ?_ ?_
          · simp only [get_valid_auth_state, hf, hl]
            rw [if_neg hv]
            simp [login_and_save_state]
          · rintro ⟨_, c, hc, hvc⟩
            obtain rfl := Option.some.inj hc
            exact hv hvc
        · intro c _ hc hvc
          obtain rfl := Option.some.inj hc
          exact absurd hvc hv
        · intro _ st hst
          simp only [get_valid_auth_state, hf, hl]
          rw [if_neg hv]
          simp [login_and_save_state, hst]

/-- Witness for C9: a local run with a valid cached state for `admin1`
returns the cache without any login. -/
theorem auth_cache_policy_witness :
    get_valid_auth_state demoEnv demoFS "admin1@test.com" =
      ⟨demoFS, Except.ok (AuthState.mk "tok" "admin1@test.com"), false⟩ :=
  (auth_cache_policy demoEnv demoFS "admin1@test.com").2.1
    (AuthState.mk "tok" "admin1@test.com") rfl (by decide) (by decide)

/-- C10: totality of the per-test context assembly.  For any resolved user
with no recorded auth state and no recorded seed mapping, `test_context`
still returns a `TestContext` whose `auth_token` is `""` and whose
`seed_items` is empty, and `get_seed_item` returns the empty dict for every
type not present. -/
theorem test_context_defaults :
    ∀ (authStates : List (String × AuthState)) (seedData : List (String × SeedMap))
      (roleMarker : Option String) (worker_id user_email : String),
      get_user_for_worker (roleMarker.getD "ADMIN") worker_id = some user_email →
      lookupAuth authStates user_email = none →
      lookupSeed seedData user_email = none →
      ∃ ctx, test_context authStates seedData roleMarker worker_id = some ctx ∧
        ctx.auth_token = "" ∧ ctx.seed_items = [] ∧
        ∀ item_type, ctx.get_seed_item item_type = SeedItemResult.emptyDict := by
  intro as sd rm wid email h ha hs
  refine ⟨TestContext.mk email (rm.getD "ADMIN") "" [] wid, ?_, rfl, rfl, ?_⟩
  · simp [test_context, h, ha, hs]
  · intro t
    simp [TestContext.get_seed_item, dictFind]

/-- Witness for C10: worker `gw0` with the default ADMIN role, empty
session mappings. -/
theorem test_context_defaults_witness :
    ∃ ctx, test_context [] [] none "gw0" = some ctx ∧
      ctx.auth_token = "" ∧ ctx.seed_items = [] ∧
      ∀ item_type, ctx.get_seed_item item_type = SeedItemResult.emptyDict :=
  test_context_defaults [] [] none "gw0" "admin1@test.com" (by decide) rfl rfl

end PWF
